import Mathlib

/-!
Verification of the IMX258 camera sensor driver core
(src/drivers/media/i2c/imx258-soho.c, with the second analyzed variant in
src/unnamed/part_000) against its natural-language specification.

The register bus is modelled as a fault oracle deciding, per register write,
whether the transport rejects it; every operation returns the list of write
attempts it issued (in order) together with its C return code, and the driver
state is threaded explicitly.  Machine integers are modelled as Nat/Int with
explicit reductions modulo powers of two where the C code converts widths.
-/

namespace IMX258

/-! ## Register and control constants, from the defines of imx258-soho.c -/

def IMX258_REG_VALUE_08BIT : Nat := 1
def IMX258_REG_VALUE_16BIT : Nat := 2

def IMX258_REG_MODE_SELECT : Nat := 0x0100
def IMX258_MODE_STANDBY : Nat := 0x00
def IMX258_MODE_STREAMING : Nat := 0x01

def IMX258_REG_ORIENTATION : Nat := 0x101

/-- Pixel rate is fixed at 840MHz for all the modes (value from the source). -/
def IMX258_PIXEL_RATE : Nat := 518400000 / 2

def IMX258_REG_FRAME_LENGTH : Nat := 0x0340
def IMX258_FRAME_LENGTH_MAX : Nat := 0xffdc

def IMX258_LONG_EXP_SHIFT_MAX : Nat := 7
def IMX258_LONG_EXP_SHIFT_REG : Nat := 0x3100

def IMX258_REG_EXPOSURE : Nat := 0x0202
def IMX258_EXPOSURE_OFFSET : Nat := 22
def IMX258_EXPOSURE_MIN : Nat := 20
def IMX258_EXPOSURE_STEP : Nat := 1
def IMX258_EXPOSURE_DEFAULT : Nat := 0x640
def IMX258_EXPOSURE_MAX : Nat := IMX258_FRAME_LENGTH_MAX - IMX258_EXPOSURE_OFFSET

def IMX258_REG_ANALOG_GAIN : Nat := 0x0204

def IMX258_REG_GR_DIGITAL_GAIN : Nat := 0x020e
def IMX258_REG_R_DIGITAL_GAIN : Nat := 0x0210
def IMX258_REG_B_DIGITAL_GAIN : Nat := 0x0212
def IMX258_REG_GB_DIGITAL_GAIN : Nat := 0x0214

def IMX258_REG_TEST_PATTERN : Nat := 0x0600
def IMX258_REG_TEST_PATTERN_R : Nat := 0x0602
def IMX258_REG_TEST_PATTERN_GR : Nat := 0x0604
def IMX258_REG_TEST_PATTERN_B : Nat := 0x0606
def IMX258_REG_TEST_PATTERN_GB : Nat := 0x0608

/-- Menu index to test pattern register value, array imx258_test_pattern_val:
DISABLE, COLOR_BARS, SOLID_COLOR, GREY_COLOR, PN9. -/
def imx258_test_pattern_val : List Nat := [0, 2, 1, 3, 4]

/-- Linux errno EINVAL. -/
def EINVAL : Int := 22
/-- Linux errno EIO_code. -/
def EIO_code : Int := 5

/-! ## Register bus model

A register write attempt, as it appears on the wire: 16-bit address, length in
bytes, and the transmitted value (the C code sends the low 8*len bits of the
32-bit value, big-endian). -/

structure RegWrite where
  addr : Nat
  len : Nat
  val : Nat
deriving DecidableEq, Repr

/-- Transport fault model: the bus decides per write attempt whether the
transfer fails (i2c_master_send short write, giving -EIO_code). -/
structure Bus where
  fails : RegWrite → Bool

/-- Bus on which every write succeeds. -/
def bus_ok : Bus := ⟨fun _ => false⟩

/-- Embedding of imx258_write_reg: writes registers up to 4 bytes at a time.
Returns the list of write attempts issued (empty for the len > 4 argument
check) and the C return code.  The transmitted value is val mod 2^(8*len),
matching put_unaligned_be32(val << (8 * (4 - len))) sent as len bytes. -/
def imx258_write_reg (bus : Bus) (reg len val : Nat) : List RegWrite × Int :=
  if 4 < len then ([], -EINVAL)
  else
    let w : RegWrite := ⟨reg % 2 ^ 16, len, val % 2 ^ (8 * len)⟩
    ([w], if bus.fails w then -EIO_code else 0)

/-- Embedding of imx258_write_regs: writes a list of (address, 8-bit value)
registers in order, stopping at (and returning) the first failure. -/
def imx258_write_regs (bus : Bus) : List (Nat × Nat) → List RegWrite × Int
  | [] => ([], 0)
  | r :: rest =>
    let first := imx258_write_reg bus r.1 1 r.2
    if first.2 ≠ 0 then first
    else
      let more := imx258_write_regs bus rest
      (first.1 ++ more.1, more.2)

/-- Write attempt produced by one entry of a register table (len = 1). -/
def reg_write_1 (r : Nat × Nat) : RegWrite := ⟨r.1 % 2 ^ 16, 1, r.2 % 2 ^ 8⟩

/-- Write attempts produced by a whole register table. -/
def regs_writes (regs : List (Nat × Nat)) : List RegWrite := regs.map reg_write_1

/-- Register table mode_common_regs, transcribed from src/drivers/media/i2c/imx258-soho.c lines 155-203 (commented-out entries excluded). -/
def mode_common_regs : List (Nat × Nat) := [
  (0x0136, 0x18),
  (0x0137, 0x00),
  (0x3051, 0x00),
  (0x6B11, 0xCF),
  (0x7FF0, 0x08),
  (0x7FF1, 0x0F),
  (0x7FF2, 0x08),
  (0x7FF3, 0x1B),
  (0x7FF4, 0x23),
  (0x7FF5, 0x60),
  (0x7FF6, 0x00),
  (0x7FF7, 0x01),
  (0x7FF8, 0x00),
  (0x7FF9, 0x78),
  (0x7FFA, 0x01),
  (0x7FFB, 0x00),
  (0x7FFC, 0x00),
  (0x7FFD, 0x00),
  (0x7FFE, 0x00),
  (0x7FFF, 0x03),
  (0x7F76, 0x03),
  (0x7F77, 0xFE),
  (0x7FA8, 0x03),
  (0x7FA9, 0xFE),
  (0x7B24, 0x81),
  (0x7B25, 0x01),
  (0x6564, 0x07),
  (0x6B0D, 0x41),
  (0x653D, 0x04),
  (0x6B05, 0x8C),
  (0x6B06, 0xF9),
  (0x6B08, 0x65),
  (0x6B09, 0xFC),
  (0x6B0A, 0xCF),
  (0x6B0B, 0xD2),
  (0x6700, 0x0E),
  (0x6707, 0x0E),
  (0x5F04, 0x00),
  (0x5F05, 0xED),
]

/-- Register table mode_4208x3120_regs, transcribed from src/drivers/media/i2c/imx258-soho.c lines 206-338 (commented-out entries excluded). -/
def mode_4208x3120_regs : List (Nat × Nat) := [
  (0x0112, 0x0A),
  (0x0113, 0x0A),
  (0x0114, 0x01),
  (0x0301, 0x05),
  (0x0303, 0x04),
  (0x0305, 0x04),
  (0x0306, 0x00),
  (0x0307, 216),
  (0x0309, 0x0A),
  (0x030B, 0x01),
  (0x030D, 0x02),
  (0x030E, 0x00),
  (0x030F, 216),
  (0x0310, 0x00),
  (0x0820, 0x0A),
  (0x0821, 0x20),
  (0x0822, 0x00),
  (0x0823, 0x00),
  (0x4648, 0x7F),
  (0x9104, 0x04),
  (0x0342, 0x14),
  (0x0343, 0xE8),
  (0x0344, 0x00),
  (0x0345, 0x00),
  (0x0346, 0x00),
  (0x0347, 0x00),
  (0x0348, 0x10),
  (0x0349, 0x6F),
  (0x034A, 0x0C),
  (0x034B, 0x2F),
  (0x0381, 0x01),
  (0x0383, 0x01),
  (0x0385, 0x01),
  (0x0387, 0x01),
  (0x0900, 0x00),
  (0x0901, 0x11),
  (0x0401, 0x00),
  (0x0404, 0x00),
  (0x0405, 0x10),
  (0x0408, 0x00),
  (0x0409, 0x00),
  (0x040A, 0x00),
  (0x040B, 0x00),
  (0x040C, 0x10),
  (0x040D, 0x70),
  (0x040E, 0x0C),
  (0x040F, 0x30),
  (0x3038, 0x00),
  (0x303A, 0x00),
  (0x303B, 0x10),
  (0x300D, 0x00),
  (0x034C, 0x10),
  (0x034D, 0x70),
  (0x034E, 0x0C),
  (0x034F, 0x30),
  (0x020E, 0x01),
  (0x020F, 0x00),
  (0x0210, 0x01),
  (0x0211, 0x00),
  (0x0212, 0x01),
  (0x0213, 0x00),
  (0x0214, 0x01),
  (0x0215, 0x00),
  (0x7BCD, 0x00),
  (0x94DC, 0x20),
  (0x94DD, 0x20),
  (0x94DE, 0x20),
  (0x95DC, 0x20),
  (0x95DD, 0x20),
  (0x95DE, 0x20),
  (0x7FB0, 0x00),
  (0x9010, 0x3E),
  (0x9419, 0x50),
  (0x941B, 0x50),
  (0x9519, 0x50),
  (0x951B, 0x50),
  (0x3030, 0x01),
  (0x3032, 0x01),
  (0x0220, 0x00),
]

/-- Register table mode_2048x1560_regs, transcribed from src/drivers/media/i2c/imx258-soho.c lines 341-477 (commented-out entries excluded). -/
def mode_2048x1560_regs : List (Nat × Nat) := [
  (0x0112, 0x0A),
  (0x0113, 0x0A),
  (0x0114, 0x01),
  (0x0301, 0x05),
  (0x0303, 0x02),
  (0x0305, 0x04),
  (0x0306, 0x00),
  (0x0307, 0xD8),
  (0x0309, 0x0A),
  (0x030B, 0x01),
  (0x030D, 0x02),
  (0x030E, 0x00),
  (0x030F, 0xD8),
  (0x0310, 0x00),
  (0x0820, 0x0A),
  (0x0821, 0x20),
  (0x0822, 0x00),
  (0x0823, 0x00),
  (0x4648, 0x7F),
  (0x9104, 0x00),
  (0x0342, 0x14),
  (0x0343, 0xE8),
  (0x0344, 0x00),
  (0x0345, 0x00),
  (0x0346, 0x00),
  (0x0347, 0x00),
  (0x0348, 0x10),
  (0x0349, 0x6F),
  (0x034A, 0x0C),
  (0x034B, 0x2F),
  (0x0381, 0x01),
  (0x0383, 0x01),
  (0x0385, 0x01),
  (0x0387, 0x01),
  (0x0900, 0x01),
  (0x0901, 0x12),
  (0x0401, 0x01),
  (0x0404, 0x00),
  (0x0405, 0x20),
  (0x0408, 0x00),
  (0x0409, 0x02),
  (0x040A, 0x00),
  (0x040B, 0x00),
  (0x040C, 0x10),
  (0x040D, 0x68),
  (0x040E, 0x06),
  (0x040F, 0x18),
  (0x3038, 0x00),
  (0x303A, 0x00),
  (0x303B, 0x10),
  (0x300D, 0x00),
  (0x034C, 0x08),
  (0x034D, 0x34),
  (0x034E, 0x06),
  (0x034F, 0x18),
  (0x020E, 0x01),
  (0x020F, 0x00),
  (0x0210, 0x01),
  (0x0211, 0x00),
  (0x0212, 0x01),
  (0x0213, 0x00),
  (0x0214, 0x01),
  (0x0215, 0x00),
  (0x7BCD, 0x01),
  (0x94DC, 0x20),
  (0x94DD, 0x20),
  (0x94DE, 0x20),
  (0x95DC, 0x20),
  (0x95DD, 0x20),
  (0x95DE, 0x20),
  (0x7FB0, 0x00),
  (0x9010, 0x3E),
  (0x9419, 0x50),
  (0x941B, 0x50),
  (0x9519, 0x50),
  (0x951B, 0x50),
  (0x3030, 0x00),
  (0x3032, 0x00),
  (0x0220, 0x00),
]

/-- Register table mode_1920x1080_regs, transcribed from src/drivers/media/i2c/imx258-soho.c lines 480-617 (commented-out entries excluded). -/
def mode_1920x1080_regs : List (Nat × Nat) := [
  (0x0112, 0x0A),
  (0x0113, 0x0A),
  (0x0114, 0x01),
  (0x0301, 0x05),
  (0x0303, 0x02),
  (0x0305, 0x04),
  (0x0306, 0x00),
  (0x0307, 0xD8),
  (0x0309, 0x0A),
  (0x030B, 0x01),
  (0x030D, 0x02),
  (0x030E, 0x00),
  (0x030F, 0xD8),
  (0x0310, 0x00),
  (0x0820, 0x0A),
  (0x0821, 0x20),
  (0x0822, 0x00),
  (0x0823, 0x00),
  (0x4648, 0x7F),
  (0x9104, 0x00),
  (0x0342, 0x14),
  (0x0343, 0xE8),
  (0x0344, 0x00),
  (0x0345, 0x00),
  (0x0346, 0x00),
  (0x0347, 0x00),
  (0x0348, 0x10),
  (0x0349, 0x6F),
  (0x034A, 0x0C),
  (0x034B, 0x2F),
  (0x0381, 0x01),
  (0x0383, 0x01),
  (0x0385, 0x01),
  (0x0387, 0x01),
  (0x0900, 0x01),
  (0x0901, 0x12),
  (0x0401, 0x01),
  (0x0404, 0x00),
  (0x0405, 0x20),
  (0x0408, 0x00),
  (0x0409, 92),
  (0x040A, 0x00),
  (0x040B, 240),
  (0x040C, 0x0F),
  (0x040D, 0x00),
  (0x040E, 0x04),
  (0x040F, 0x38),
  (0x3038, 0x00),
  (0x303A, 0x00),
  (0x303B, 0x10),
  (0x300D, 0x00),
  (0x034C, 0x07),
  (0x034D, 0x80),
  (0x034E, 0x04),
  (0x034F, 0x38),
  (0x020E, 0x01),
  (0x020F, 0xf0),
  (0x0210, 0x01),
  (0x0211, 0xf0),
  (0x0212, 0x01),
  (0x0213, 0xf0),
  (0x0214, 0x01),
  (0x0215, 0xf0),
  (0x7BCD, 0x01),
  (0x94DC, 0x20),
  (0x94DD, 0x20),
  (0x94DE, 0x20),
  (0x95DC, 0x20),
  (0x95DD, 0x20),
  (0x95DE, 0x20),
  (0x7FB0, 0x00),
  (0x9010, 0x3E),
  (0x9419, 0x50),
  (0x941B, 0x50),
  (0x9519, 0x50),
  (0x951B, 0x50),
  (0x3030, 0x00),
  (0x3032, 0x00),
  (0x0220, 0x00),
]

/-! ## Data model: fractions, rectangles, modes, format codes -/

/-- Embedding of struct v4l2_fract. -/
structure V4l2Fract where
  numerator : Nat
  denominator : Nat
deriving DecidableEq, Repr

/-- Embedding of struct v4l2_rect. -/
structure V4l2Rect where
  left : Int
  top : Int
  width : Nat
  height : Nat
deriving DecidableEq, Repr

/-- Embedding of struct imx258_mode. -/
structure Imx258Mode where
  width : Nat
  height : Nat
  line_length_pix : Nat
  crop : V4l2Rect
  timeperframe_min : V4l2Fract
  timeperframe_default : V4l2Fract
  reg_list : List (Nat × Nat)
deriving DecidableEq, Repr

/-- The 12MPix 15fps mode (4208x3120). -/
def imx258_mode_4208x3120 : Imx258Mode :=
  { width := 4208, height := 3120, line_length_pix := 5352,
    crop := { left := 0, top := 0, width := 4096, height := 3120 },
    timeperframe_min := { numerator := 100, denominator := 1000 },
    timeperframe_default := { numerator := 100, denominator := 1000 },
    reg_list := mode_4208x3120_regs }

/-- The 2x2 binned 30fps mode (2048x1560). -/
def imx258_mode_2048x1560 : Imx258Mode :=
  { width := 2048, height := 1560, line_length_pix := 5352,
    crop := { left := 0, top := 0, width := 2048, height := 1560 },
    timeperframe_min := { numerator := 100, denominator := 4000 },
    timeperframe_default := { numerator := 100, denominator := 3000 },
    reg_list := mode_2048x1560_regs }

/-- The 1080p 30fps cropped mode (1920x1080). -/
def imx258_mode_1920x1080 : Imx258Mode :=
  { width := 1920, height := 1080, line_length_pix := 5352,
    crop := { left := 0, top := 440, width := 1920, height := 1080 },
    timeperframe_min := { numerator := 100, denominator := 4000 },
    timeperframe_default := { numerator := 100, denominator := 3000 },
    reg_list := mode_1920x1080_regs }

/-- Mode table supported_modes_10bit. -/
def supported_modes_10bit : List Imx258Mode :=
  [imx258_mode_4208x3120, imx258_mode_2048x1560, imx258_mode_1920x1080]

/-- Media bus format codes for the four 10-bit Bayer variants.  The numeric
values are those of include/uapi/linux/media-bus-format.h of the kernel tree
(the header is not among the analyzed files); only their distinctness matters
here. -/
def MEDIA_BUS_FMT_SRGGB10_1X10 : Nat := 0x300f
def MEDIA_BUS_FMT_SGRBG10_1X10 : Nat := 0x300a
def MEDIA_BUS_FMT_SGBRG10_1X10 : Nat := 0x300e
def MEDIA_BUS_FMT_SBGGR10_1X10 : Nat := 0x3007

/-- Array codes of imx258-soho.c: 4 entries per format block, in the order
no flip, h flip, v flip, h and v flips (the 12-bit block is commented out in
the source). -/
def codes : List Nat :=
  [MEDIA_BUS_FMT_SRGGB10_1X10, MEDIA_BUS_FMT_SGRBG10_1X10,
   MEDIA_BUS_FMT_SGBRG10_1X10, MEDIA_BUS_FMT_SBGGR10_1X10]

/-! ## Device state

Embedding of struct imx258: the active mode, streaming lifecycle flags, the
long exposure shift, and the value and range bookkeeping of the v4l2 controls
owned by the driver (control values are s32 in the kernel, hence Int). -/

structure Imx258 where
  mode : Imx258Mode
  fmt_code : Nat
  streaming : Bool
  common_regs_written : Bool
  long_exp_shift : Nat
  pixel_rate : Int
  vblank : Int
  hblank : Int
  exposure : Int
  exposure_min : Int
  exposure_max : Int
  exposure_step : Int
  exposure_default : Int
  analogue_gain : Int
  digital_gain : Int
  test_pattern : Int
  test_pattern_red : Int
  test_pattern_greenr : Int
  test_pattern_blue : Int
  test_pattern_greenb : Int
  hflip : Int
  vflip : Int
  hflip_grabbed : Bool
  vflip_grabbed : Bool
deriving DecidableEq, Repr

/-- Conversion of a C s32 value to the u32 it becomes when passed to an
unsigned parameter (two's complement wrap). -/
def s32_to_u32 (x : Int) : Nat := (x % (2 ^ 32 : Int)).toNat

/-- Arithmetic right shift of a C s32 value (gcc semantics, floor division). -/
def s32_shr (x : Int) (s : Nat) : Int := Int.fdiv x (2 ^ s)

/-! ## FormatNegotiator: flip-dependent Bayer code remap -/

/-- Embedding of imx258_get_format_code of imx258-soho.c: find the index of
the requested code (the C loop leaves i = ARRAY_SIZE when absent, then resets
it to 0), mask off the low two bits, or in the flip bits, and index the table.
The C expression i & ~3 is on a 32-bit unsigned i, hence the 0xfffffffc. -/
def imx258_get_format_code (d : Imx258) (code : Nat) : Nat :=
  let i := codes.findIdx (fun c => c = code)
  let i := if codes.length ≤ i then 0 else i
  let i := (i &&& 0xfffffffc) |||
    (if d.vflip = 0 then 0 else 2) ||| (if d.hflip = 0 then 0 else 1)
  codes.getD i 0

/-! ## TimingController -/

/-- Modelled from the spec: __v4l2_ctrl_modify_range (v4l2 control framework,
not among the analyzed source files) updates the bounds and default of the
exposure control in place and keeps the current value inside the new range,
"preserving current value unless it now exceeds the new max (then clamp
down)"; the kernel clamp applies the upper bound last. -/
def v4l2_ctrl_modify_range_exposure (d : Imx258)
    (minimum maximum step default_value : Int) : Imx258 :=
  { d with exposure_min := minimum, exposure_max := maximum,
           exposure_step := step, exposure_default := default_value,
           exposure := min (max d.exposure minimum) maximum }

/-- Embedding of imx258_adjust_exposure_range: honour the VBLANK limits when
setting exposure.  The C value IMX258_EXPOSURE_OFFSET << long_exp_shift is
written as multiplication by 2 ^ long_exp_shift on Int. -/
def imx258_adjust_exposure_range (d : Imx258) : Imx258 :=
  let exposure_max : Int :=
    (d.mode.height : Int) + d.vblank -
      (IMX258_EXPOSURE_OFFSET : Int) * 2 ^ d.long_exp_shift
  let exposure_def : Int := min exposure_max d.exposure
  v4l2_ctrl_modify_range_exposure d d.exposure_min exposure_max
    d.exposure_step exposure_def

/-- Loop of imx258_set_frame_length: while val exceeds
IMX258_FRAME_LENGTH_MAX, increment the shift and halve val (val >>= 1).
Returns (long_exp_shift, reduced val). -/
def imx258_long_exp_loop (val : Nat) : Nat × Nat :=
  if IMX258_FRAME_LENGTH_MAX < val then
    let r := imx258_long_exp_loop (val >>> 1)
    (r.1 + 1, r.2)
  else (0, val)
termination_by val
decreasing_by
  simp only [Nat.shiftRight_eq_div_pow, pow_one]
  omega

/-- Embedding of imx258_set_frame_length: compute the long exposure shift,
then write the 16-bit frame length register followed by the 8-bit shift
register (in that order), stopping on failure. -/
def imx258_set_frame_length (bus : Bus) (d : Imx258) (val : Nat) :
    Imx258 × List RegWrite × Int :=
  let r := imx258_long_exp_loop val
  let d := { d with long_exp_shift := r.1 }
  let first := imx258_write_reg bus IMX258_REG_FRAME_LENGTH
    IMX258_REG_VALUE_16BIT r.2
  if first.2 ≠ 0 then (d, first.1, first.2)
  else
    let second := imx258_write_reg bus IMX258_LONG_EXP_SHIFT_REG
      IMX258_REG_VALUE_08BIT d.long_exp_shift
    (d, first.1 ++ second.1, second.2)

/-- Embedding of imx258_get_frame_length: 64-bit product of the requested
frame interval numerator and the pixel rate, divided (do_div) by
denominator * line_length_pix — do_div truncates its divisor to u32, hence
the mod 2^32 — then clamped to IMX258_FRAME_LENGTH_MAX (WARN_ON path) and
raised to at least the mode height. -/
def imx258_get_frame_length (mode : Imx258Mode) (tpf : V4l2Fract) : Nat :=
  let divisor := (tpf.denominator * mode.line_length_pix) % 2 ^ 32
  let frame_length := tpf.numerator * IMX258_PIXEL_RATE / divisor
  let frame_length :=
    if IMX258_FRAME_LENGTH_MAX < frame_length then IMX258_FRAME_LENGTH_MAX
    else frame_length
  max frame_length mode.height

/-! ## ControlBank: the set-control dispatcher -/

/-- Control identifiers handled by imx258_set_ctrl; unknown covers every other
V4L2 control id (the default branch of the C switch). -/
inductive CtrlId where
  | analogue_gain
  | exposure
  | digital_gain
  | test_pattern
  | test_pattern_red
  | test_pattern_greenr
  | test_pattern_blue
  | test_pattern_greenb
  | hflip
  | vflip
  | vblank
  | unknown (id : Nat)
deriving DecidableEq, Repr

/-- Switch body of imx258_set_ctrl of imx258-soho.c, reached only while the
device is powered.  Note the digital gain case: the C code assigns ret from
each of the four channel writes without checking in between, so all four are
attempted and only the result of the last (GB) write is returned. -/
def imx258_set_ctrl_body (bus : Bus) (d : Imx258) (id : CtrlId) :
    Imx258 × List RegWrite × Int :=
  match id with
  | .analogue_gain =>
    let r := imx258_write_reg bus IMX258_REG_ANALOG_GAIN
      IMX258_REG_VALUE_16BIT (s32_to_u32 d.analogue_gain)
    (d, r.1, r.2)
  | .exposure =>
    let r := imx258_write_reg bus IMX258_REG_EXPOSURE
      IMX258_REG_VALUE_16BIT (s32_to_u32 (s32_shr d.exposure d.long_exp_shift))
    (d, r.1, r.2)
  | .digital_gain =>
    let w1 := imx258_write_reg bus IMX258_REG_GR_DIGITAL_GAIN
      IMX258_REG_VALUE_16BIT (s32_to_u32 d.digital_gain)
    let w2 := imx258_write_reg bus IMX258_REG_R_DIGITAL_GAIN
      IMX258_REG_VALUE_16BIT (s32_to_u32 d.digital_gain)
    let w3 := imx258_write_reg bus IMX258_REG_B_DIGITAL_GAIN
      IMX258_REG_VALUE_16BIT (s32_to_u32 d.digital_gain)
    let w4 := imx258_write_reg bus IMX258_REG_GB_DIGITAL_GAIN
      IMX258_REG_VALUE_16BIT (s32_to_u32 d.digital_gain)
    (d, w1.1 ++ w2.1 ++ w3.1 ++ w4.1, w4.2)
  | .test_pattern =>
    let r := imx258_write_reg bus IMX258_REG_TEST_PATTERN
      IMX258_REG_VALUE_16BIT
      (imx258_test_pattern_val.getD (s32_to_u32 d.test_pattern) 0)
    (d, r.1, r.2)
  | .test_pattern_red =>
    let r := imx258_write_reg bus IMX258_REG_TEST_PATTERN_R
      IMX258_REG_VALUE_16BIT (s32_to_u32 d.test_pattern_red)
    (d, r.1, r.2)
  | .test_pattern_greenr =>
    let r := imx258_write_reg bus IMX258_REG_TEST_PATTERN_GR
      IMX258_REG_VALUE_16BIT (s32_to_u32 d.test_pattern_greenr)
    (d, r.1, r.2)
  | .test_pattern_blue =>
    let r := imx258_write_reg bus IMX258_REG_TEST_PATTERN_B
      IMX258_REG_VALUE_16BIT (s32_to_u32 d.test_pattern_blue)
    (d, r.1, r.2)
  | .test_pattern_greenb =>
    let r := imx258_write_reg bus IMX258_REG_TEST_PATTERN_GB
      IMX258_REG_VALUE_16BIT (s32_to_u32 d.test_pattern_greenb)
    (d, r.1, r.2)
  | .hflip =>
    let r := imx258_write_reg bus IMX258_REG_ORIENTATION 1
      (s32_to_u32 d.hflip ||| (s32_to_u32 d.vflip <<< 1))
    (d, r.1, r.2)
  | .vflip =>
    let r := imx258_write_reg bus IMX258_REG_ORIENTATION 1
      (s32_to_u32 d.hflip ||| (s32_to_u32 d.vflip <<< 1))
    (d, r.1, r.2)
  | .vblank =>
    imx258_set_frame_length bus d (s32_to_u32 ((d.mode.height : Int) + d.vblank))
  | .unknown _ => (d, [], -EINVAL)

/-- Embedding of imx258_set_ctrl: a VBLANK change first adjusts the exposure
range; applying the value to the hardware only happens when power is up
(pm_runtime_get_if_in_use, modelled by the powered flag) — otherwise the call
returns 0 with no register write. -/
def imx258_set_ctrl (bus : Bus) (powered : Bool) (d : Imx258) (id : CtrlId) :
    Imx258 × List RegWrite × Int :=
  let d := if id = .vblank then imx258_adjust_exposure_range d else d
  if powered = false then (d, [], 0)
  else imx258_set_ctrl_body bus d id

/-- Modelled from the spec: the v4l2 control framework (not among the analyzed
source files) stores the new value into the control before invoking the
driver s_ctrl op; "the new value is recorded" even when the write is
deferred.  For the exposure control, whose range the driver mutates at run
time, the framework clamps the request into the current [minimum, maximum]
range ("setting exposure above this max then calling set is
rejected/clamped, never written verbatim above max"). -/
def v4l2_ctrl_record (d : Imx258) (id : CtrlId) (val : Int) : Imx258 :=
  match id with
  | .analogue_gain => { d with analogue_gain := val }
  | .exposure => { d with exposure := min (max val d.exposure_min) d.exposure_max }
  | .digital_gain => { d with digital_gain := val }
  | .test_pattern => { d with test_pattern := val }
  | .test_pattern_red => { d with test_pattern_red := val }
  | .test_pattern_greenr => { d with test_pattern_greenr := val }
  | .test_pattern_blue => { d with test_pattern_blue := val }
  | .test_pattern_greenb => { d with test_pattern_greenb := val }
  | .hflip => { d with hflip := val }
  | .vflip => { d with vflip := val }
  | .vblank => { d with vblank := val }
  | .unknown _ => d

/-- Stored value of a control. -/
def imx258_ctrl_val (d : Imx258) : CtrlId → Int
  | .analogue_gain => d.analogue_gain
  | .exposure => d.exposure
  | .digital_gain => d.digital_gain
  | .test_pattern => d.test_pattern
  | .test_pattern_red => d.test_pattern_red
  | .test_pattern_greenr => d.test_pattern_greenr
  | .test_pattern_blue => d.test_pattern_blue
  | .test_pattern_greenb => d.test_pattern_greenb
  | .hflip => d.hflip
  | .vflip => d.vflip
  | .vblank => d.vblank
  | .unknown _ => 0

/-- Setting a control through the framework: record the value, then run the
driver dispatcher. -/
def v4l2_s_ctrl (bus : Bus) (powered : Bool) (d : Imx258) (id : CtrlId)
    (val : Int) : Imx258 × List RegWrite × Int :=
  imx258_set_ctrl bus powered (v4l2_ctrl_record d id val) id

/-- Embedding of imx258_update_digital_gain of src/unnamed/part_000: the same
fan-out of one logical value into the four channel registers, but checking
each write and returning the first failure (order GR, GB, R, B in that
variant). -/
def imx258_update_digital_gain (bus : Bus) (val : Nat) : List RegWrite × Int :=
  let w1 := imx258_write_reg bus IMX258_REG_GR_DIGITAL_GAIN
    IMX258_REG_VALUE_16BIT val
  if w1.2 ≠ 0 then w1
  else
    let w2 := imx258_write_reg bus IMX258_REG_GB_DIGITAL_GAIN
      IMX258_REG_VALUE_16BIT val
    if w2.2 ≠ 0 then (w1.1 ++ w2.1, w2.2)
    else
      let w3 := imx258_write_reg bus IMX258_REG_R_DIGITAL_GAIN
        IMX258_REG_VALUE_16BIT val
      if w3.2 ≠ 0 then (w1.1 ++ w2.1 ++ w3.1, w3.2)
      else
        let w4 := imx258_write_reg bus IMX258_REG_B_DIGITAL_GAIN
          IMX258_REG_VALUE_16BIT val
        (w1.1 ++ w2.1 ++ w3.1 ++ w4.1, w4.2)

/-! ## StreamSequencer -/

/-- Order in which the bulk control commit replays the controls: registration
order of imx258_init_controls, without the read-only PIXEL_RATE and HBLANK
controls. -/
def imx258_setup_order : List CtrlId :=
  [.vblank, .exposure, .analogue_gain, .digital_gain, .hflip, .vflip,
   .test_pattern, .test_pattern_red, .test_pattern_greenr,
   .test_pattern_blue, .test_pattern_greenb]

/-- Replay loop of the bulk control commit: dispatch each control in order
through imx258_set_ctrl with power up, stopping at the first reported
failure. -/
def v4l2_ctrl_handler_setup_go (bus : Bus) :
    Imx258 → List CtrlId → Imx258 × List RegWrite × Int
  | d, [] => (d, [], 0)
  | d, id :: rest =>
    let r := imx258_set_ctrl bus true d id
    if r.2.2 ≠ 0 then r
    else
      let more := v4l2_ctrl_handler_setup_go bus r.1 rest
      (more.1, r.2.1 ++ more.2.1, more.2.2)

/-- Modelled from the spec: __v4l2_ctrl_handler_setup (v4l2 control framework,
not among the analyzed source files) performs the bulk control commit,
"replay every ControlBank value — this re-applies any control changes
accumulated while idle", through the driver s_ctrl dispatcher. -/
def v4l2_ctrl_handler_setup (bus : Bus) (d : Imx258) :
    Imx258 × List RegWrite × Int :=
  v4l2_ctrl_handler_setup_go bus d imx258_setup_order

/-- State change performed by dispatching one control, independent of the bus:
only the VBLANK case mutates the device (exposure range adjustment and the
long exposure shift computed by imx258_set_frame_length). -/
def imx258_ctrl_step (d : Imx258) (id : CtrlId) : Imx258 :=
  match id with
  | .vblank =>
    let d := imx258_adjust_exposure_range d
    { d with long_exp_shift :=
        (imx258_long_exp_loop (s32_to_u32 ((d.mode.height : Int) + d.vblank))).1 }
  | _ => d

/-- Write attempts dispatched for one control when nothing fails (the values
never depend on the bus, so this is the full attempt list of which every run
issues a prefix). -/
def imx258_ctrl_writes (d : Imx258) (id : CtrlId) : List RegWrite :=
  (imx258_set_ctrl bus_ok true d id).2.1

/-- Write attempts of a whole bulk control commit when nothing fails. -/
def imx258_ctrl_setup_writes (d : Imx258) : List CtrlId → List RegWrite
  | [] => []
  | id :: rest =>
    imx258_ctrl_writes d id ++
      imx258_ctrl_setup_writes (imx258_ctrl_step d id) rest

/-- Steps of imx258_start_streaming after the common register step: write the
register sequence of the active mode, replay the control values (bulk
commit), then write the mode select register to streaming; any failure aborts
and is returned. -/
def imx258_start_streaming_after_common (bus : Bus) (d : Imx258) :
    Imx258 × List RegWrite × Int :=
  let modew := imx258_write_regs bus d.mode.reg_list
  if modew.2 ≠ 0 then (d, modew.1, modew.2)
  else
    let setup := v4l2_ctrl_handler_setup bus d
    if setup.2.2 ≠ 0 then (setup.1, modew.1 ++ setup.2.1, setup.2.2)
    else
      let son := imx258_write_reg bus IMX258_REG_MODE_SELECT
        IMX258_REG_VALUE_08BIT IMX258_MODE_STREAMING
      (setup.1, modew.1 ++ setup.2.1 ++ son.1, son.2)

/-- Embedding of imx258_start_streaming: write the common register table first
if it has not been written this power cycle (setting the flag on success),
then the mode registers, the bulk control commit and the mode select
register, aborting at the first failure. -/
def imx258_start_streaming (bus : Bus) (d : Imx258) :
    Imx258 × List RegWrite × Int :=
  if d.common_regs_written then imx258_start_streaming_after_common bus d
  else
    let commonw := imx258_write_regs bus mode_common_regs
    if commonw.2 ≠ 0 then (d, commonw.1, commonw.2)
    else
      let rest := imx258_start_streaming_after_common bus
        { d with common_regs_written := true }
      (rest.1, commonw.1 ++ rest.2.1, rest.2.2)

/-- Embedding of imx258_stop_streaming: write the mode select register to
standby.  The C function returns void — a failure is only logged
(dev_err), so the model returns just the attempt list. -/
def imx258_stop_streaming (bus : Bus) : List RegWrite :=
  (imx258_write_reg bus IMX258_REG_MODE_SELECT IMX258_REG_VALUE_08BIT
    IMX258_MODE_STANDBY).1

/-- Embedding of imx258_set_stream: no-op when already in the requested state;
on enable, run the start sequence and only mark the device streaming (and
grab the flip controls) when it succeeded, otherwise return the error with
the state unchanged; on disable, run the stop sequence, mark the device not
streaming, release the flips and return 0.  The pm_runtime power calls are
external power sequencing, outside the modelled core. -/
def imx258_set_stream (bus : Bus) (d : Imx258) (enable : Bool) :
    Imx258 × List RegWrite × Int :=
  if d.streaming = enable then (d, [], 0)
  else if enable then
    let r := imx258_start_streaming bus d
    if r.2.2 ≠ 0 then r
    else
      let d2 := { r.1 with
        streaming := enable, vflip_grabbed := enable, hflip_grabbed := enable }
      (d2, r.2.1, r.2.2)
  else
    let ws := imx258_stop_streaming bus
    let d2 := { d with
      streaming := enable, vflip_grabbed := enable, hflip_grabbed := enable }
    (d2, ws, 0)

/-- Mode select write attempt that turns streaming on. -/
def mode_select_streaming : RegWrite := ⟨0x0100, 1, 0x01⟩

/-- Mode select write attempt that returns to standby. -/
def mode_select_standby : RegWrite := ⟨0x0100, 1, 0x00⟩

/-- Expected write sequence of a stream start after the common register step:
mode register sequence, bulk control commit, mode select = streaming. -/
def imx258_expected_mode_on_writes (d : Imx258) : List RegWrite :=
  regs_writes d.mode.reg_list ++
    imx258_ctrl_setup_writes d imx258_setup_order ++
    [mode_select_streaming]

/-- Full expected write sequence of a stream start: common register table
(only if not already written this power cycle), mode register sequence, bulk
control commit, mode select = streaming. -/
def imx258_expected_start_writes (d : Imx258) : List RegWrite :=
  (if d.common_regs_written then [] else regs_writes mode_common_regs) ++
    imx258_expected_mode_on_writes d

/-! ## Concrete test fixture -/

/-- Concrete device state used by the witnesses: full resolution mode with the
control defaults of imx258_init_controls (vblank at the default frame rate of
the mode, exposure and gains at their init defaults). -/
def dev0 : Imx258 :=
  { mode := imx258_mode_4208x3120, fmt_code := MEDIA_BUS_FMT_SRGGB10_1X10,
    streaming := false, common_regs_written := false, long_exp_shift := 0,
    pixel_rate := 259200000, vblank := 1722, hblank := 1144,
    exposure := 0x640, exposure_min := 20, exposure_max := 0xffdc - 22,
    exposure_step := 1, exposure_default := 0x640,
    analogue_gain := 0, digital_gain := 1024, test_pattern := 0,
    test_pattern_red := 0xfff, test_pattern_greenr := 0xfff,
    test_pattern_blue := 0xfff, test_pattern_greenb := 0xfff,
    hflip := 0, vflip := 0, hflip_grabbed := false, vflip_grabbed := false }

/-- Device state dev0 once streaming (flips grabbed, common registers
written). -/
def dev_streaming : Imx258 :=
  { dev0 with
    streaming := true, common_regs_written := true,
    hflip_grabbed := true, vflip_grabbed := true }

/-- Bus that rejects exactly the writes to the B digital gain channel
register. -/
def bus_fail_b_gain : Bus := ⟨fun w => w.addr == IMX258_REG_B_DIGITAL_GAIN⟩

/-- Bus that rejects exactly the writes to the mode select register. -/
def bus_fail_mode_select : Bus := ⟨fun w => w.addr == IMX258_REG_MODE_SELECT⟩

/-- Bus that rejects exactly the writes to the analog gain register (a write
that occurs only inside the bulk control commit step of a stream start). -/
def bus_fail_ana_gain : Bus := ⟨fun w => w.addr == IMX258_REG_ANALOG_GAIN⟩

/-! ## Lemmas about the long exposure shift loop -/

lemma long_exp_loop_snd (val : Nat) :
    (imx258_long_exp_loop val).2 = val >>> (imx258_long_exp_loop val).1 := by
  induction val using Nat.strong_induction_on with
  | _ val ih =>
    rw [imx258_long_exp_loop]
    split
    · case isTrue h =>
      have hlt : val >>> 1 < val := by
        simp only [Nat.shiftRight_eq_div_pow, pow_one]
        omega
      simp only [ih (val >>> 1) hlt, ← Nat.shiftRight_add]
      congr 1
      omega
    · simp

lemma long_exp_loop_le (val : Nat) :
    (imx258_long_exp_loop val).2 ≤ IMX258_FRAME_LENGTH_MAX := by
  induction val using Nat.strong_induction_on with
  | _ val ih =>
    rw [imx258_long_exp_loop]
    split
    · case isTrue h =>
      have hlt : val >>> 1 < val := by
        simp only [Nat.shiftRight_eq_div_pow, pow_one]
        omega
      exact ih (val >>> 1) hlt
    · case isFalse h => simpa using Nat.le_of_not_lt h

lemma long_exp_loop_min (val k : Nat)
    (h : val >>> k ≤ IMX258_FRAME_LENGTH_MAX) :
    (imx258_long_exp_loop val).1 ≤ k := by
  induction val using Nat.strong_induction_on generalizing k with
  | _ val ih =>
    rw [imx258_long_exp_loop]
    split
    · case isTrue hv =>
      have hlt : val >>> 1 < val := by
        simp only [Nat.shiftRight_eq_div_pow, pow_one]
        omega
      cases k with
      | zero =>
        simp only [Nat.shiftRight_zero] at h
        exact absurd hv (Nat.not_lt.mpr h)
      | succ k =>
        have h2 : (val >>> 1) >>> k ≤ IMX258_FRAME_LENGTH_MAX := by
          rw [← Nat.shiftRight_add, Nat.add_comm]
          exact h
        simpa using Nat.succ_le_succ (ih (val >>> 1) hlt k h2)
    · simp

lemma shiftRight_antitone (val a b : Nat) (h : a ≤ b) :
    val >>> b ≤ val >>> a := by
  simp only [Nat.shiftRight_eq_div_pow]
  exact Nat.div_le_div_left (Nat.pow_le_pow_right (by omega) h)
    (Nat.pos_pow_of_pos a (by omega))

/-- C2, first part as stated: the reduced value always satisfies
L >> shift <= FRAME_LENGTH_MAX. -/
lemma long_exp_loop_reduced_le (val : Nat) :
    val >>> (imx258_long_exp_loop val).1 ≤ IMX258_FRAME_LENGTH_MAX := by
  rw [← long_exp_loop_snd]
  exact long_exp_loop_le val

/-- C2 counterexample: at the requested frame length L = 2^24 the loop of
imx258_set_frame_length produces a shift strictly greater than
IMX258_LONG_EXP_SHIFT_MAX = 7 — the C loop contains no cap at all — so the
claimed conjunction fails at this input. -/
theorem claim_C2_counterexample :
    ¬ ((2 ^ 24) >>> (imx258_long_exp_loop (2 ^ 24)).1 ≤ IMX258_FRAME_LENGTH_MAX
       ∧ (imx258_long_exp_loop (2 ^ 24)).1 ≤ IMX258_LONG_EXP_SHIFT_MAX) := by
  rintro ⟨-, h⟩
  have h1 : (2 ^ 24) >>> IMX258_LONG_EXP_SHIFT_MAX ≤
      (2 ^ 24) >>> (imx258_long_exp_loop (2 ^ 24)).1 :=
    shiftRight_antitone _ _ _ h
  have h2 := long_exp_loop_reduced_le (2 ^ 24)
  have h3 : (2 ^ 24) >>> IMX258_LONG_EXP_SHIFT_MAX = 131072 := by decide
  rw [h3] at h1
  have : (131072 : Nat) ≤ IMX258_FRAME_LENGTH_MAX := le_trans h1 h2
  exact absurd this (by decide)

/-- C2 (amended): for every requested frame length L the shift computed by
the halving loop of imx258_set_frame_length satisfies
L >> shift <= FRAME_LENGTH_MAX, and the shift stays within the hard cap of 7
exactly when L >> 7 <= FRAME_LENGTH_MAX (the code itself never enforces the
cap, so larger inputs exceed it). -/
theorem claim_C2_amended (val : Nat) :
    val >>> (imx258_long_exp_loop val).1 ≤ IMX258_FRAME_LENGTH_MAX ∧
    ((imx258_long_exp_loop val).1 ≤ IMX258_LONG_EXP_SHIFT_MAX ↔
      val >>> IMX258_LONG_EXP_SHIFT_MAX ≤ IMX258_FRAME_LENGTH_MAX) := by
  refine ⟨long_exp_loop_reduced_le val, ?_, long_exp_loop_min val _⟩
  intro h
  calc val >>> IMX258_LONG_EXP_SHIFT_MAX
      ≤ val >>> (imx258_long_exp_loop val).1 := shiftRight_antitone _ _ _ h
    _ ≤ IMX258_FRAME_LENGTH_MAX := long_exp_loop_reduced_le val

/-- C10 counterexample: at the requested frame length L = 262003 the shift is
2 and the round-trip value (L >> shift) << shift = 262000 differs from L by
3, more than one unit. -/
theorem claim_C10_counterexample :
    ¬ (262003 - ((262003 >>> (imx258_long_exp_loop 262003).1) <<<
        (imx258_long_exp_loop 262003).1) ≤ 1) := by
  intro h
  have hs2 : (imx258_long_exp_loop 262003).1 ≤ 2 :=
    long_exp_loop_min 262003 2 (by decide)
  have hs1 : ¬ (imx258_long_exp_loop 262003).1 ≤ 1 := by
    intro hle
    have h1 : (262003 : Nat) >>> 1 ≤
        262003 >>> (imx258_long_exp_loop 262003).1 :=
      shiftRight_antitone _ _ _ hle
    have h2 := long_exp_loop_reduced_le 262003
    have h3 : (262003 : Nat) >>> 1 = 131001 := by decide
    rw [h3] at h1
    exact absurd (le_trans h1 h2) (by decide)
  have hs : (imx258_long_exp_loop 262003).1 = 2 := by omega
  rw [hs] at h
  exact absurd h (by decide)

/-- C10 (amended): for every input frame length L, the round-trip value
(L >> shift) << shift is at most L and differs from it by less than
2 ^ shift (one long exposure unit at the chosen granularity); whenever
L <= 2 * FRAME_LENGTH_MAX + 1 — which covers every frame length reachable
through the VBLANK control — the difference is at most one unit. -/
theorem claim_C10_amended (val : Nat) :
    ((val >>> (imx258_long_exp_loop val).1) <<< (imx258_long_exp_loop val).1
       ≤ val ∧
     val - (val >>> (imx258_long_exp_loop val).1) <<<
       (imx258_long_exp_loop val).1 < 2 ^ (imx258_long_exp_loop val).1) ∧
    (val ≤ 2 * IMX258_FRAME_LENGTH_MAX + 1 →
      val - (val >>> (imx258_long_exp_loop val).1) <<<
        (imx258_long_exp_loop val).1 ≤ 1) := by
  have hmod : ∀ s : Nat, (val >>> s) <<< s = val - val % 2 ^ s := by
    intro s
    simp only [Nat.shiftRight_eq_div_pow, Nat.shiftLeft_eq]
    rw [Nat.mul_comm]
    have := Nat.div_add_mod val (2 ^ s)
    omega
  set s := (imx258_long_exp_loop val).1 with hs
  have hpos : 0 < 2 ^ s := Nat.pos_pow_of_pos s (by omega)
  have hmlt : val % 2 ^ s < 2 ^ s := Nat.mod_lt _ hpos
  have hmle : val % 2 ^ s ≤ val := Nat.mod_le _ _
  refine ⟨⟨?_, ?_⟩, ?_⟩
  · rw [hmod]; omega
  · rw [hmod]; omega
  · intro hval
    have h2 : val >>> 1 ≤ IMX258_FRAME_LENGTH_MAX := by
      simp only [Nat.shiftRight_eq_div_pow, pow_one]
      unfold IMX258_FRAME_LENGTH_MAX at hval ⊢
      omega
    have hs1 : s ≤ 1 := long_exp_loop_min val 1 h2
    have : (2 : Nat) ^ s ≤ 2 ^ 1 := Nat.pow_le_pow_right (by omega) hs1
    rw [hmod]
    omega

/-- C10 witness: the amended statement instantiated at the in-range input
L = 100000. -/
theorem claim_C10_witness :
    (100000 : Nat) ≤ 2 * IMX258_FRAME_LENGTH_MAX + 1 ∧
    100000 - (100000 >>> (imx258_long_exp_loop 100000).1) <<<
      (imx258_long_exp_loop 100000).1 ≤ 1 :=
  ⟨by decide, (claim_C10_amended 100000).2 (by decide)⟩

/-! ## Claim C4: exposure range adjustment -/

/-- C4: after imx258_adjust_exposure_range, the exposure maximum equals
mode.height + vblank - (EXPOSURE_OFFSET << long_exp_shift), the stored and
default exposure values never exceed the new maximum, an in-range current
value is preserved, and a later recorded exposure value is clamped to the
maximum rather than kept verbatim. -/
theorem claim_C4_adjust_exposure_range (d : Imx258) :
    (imx258_adjust_exposure_range d).exposure_max =
      (d.mode.height : Int) + d.vblank -
        (IMX258_EXPOSURE_OFFSET : Int) * 2 ^ d.long_exp_shift ∧
    (imx258_adjust_exposure_range d).exposure ≤
      (imx258_adjust_exposure_range d).exposure_max ∧
    (imx258_adjust_exposure_range d).exposure_default ≤
      (imx258_adjust_exposure_range d).exposure_max ∧
    (d.exposure_min ≤ d.exposure →
      d.exposure ≤ (imx258_adjust_exposure_range d).exposure_max →
      (imx258_adjust_exposure_range d).exposure = d.exposure) ∧
    (∀ v : Int,
      (v4l2_ctrl_record (imx258_adjust_exposure_range d) .exposure v).exposure ≤
        (imx258_adjust_exposure_range d).exposure_max) := by
  simp only [imx258_adjust_exposure_range, v4l2_ctrl_modify_range_exposure,
    v4l2_ctrl_record]
  refine ⟨?_, ?_, ?_, ?_, ?_⟩
  · trivial
  · omega
  · omega
  · intro h1 h2
    omega
  · intro v
    omega

/-- C4 witness: at the concrete device dev0 the adjusted maximum is
3120 + 1722 - 22 = 4820 and the in-range current exposure 0x640 is kept. -/
theorem claim_C4_witness :
    dev0.exposure_min ≤ dev0.exposure ∧
    dev0.exposure ≤ (imx258_adjust_exposure_range dev0).exposure_max ∧
    (imx258_adjust_exposure_range dev0).exposure = dev0.exposure := by
  have h := claim_C4_adjust_exposure_range dev0
  have hle : dev0.exposure ≤ (imx258_adjust_exposure_range dev0).exposure_max := by
    rw [h.1]; decide
  exact ⟨by decide, hle, h.2.2.2.1 (by decide) hle⟩

/-! ## Claims C5 and C9: frame length computation -/

/-- C5: the computed frame length is the requested interval times the pixel
rate divided by the line time, clamped into [mode.height,
IMX258_FRAME_LENGTH_MAX] — values above the maximum saturate, values below
the mode height are raised.  The hypotheses delimit the domain on which the C
u64/u32 arithmetic is defined: a nonzero denominator and a divisor that fits
the u32 base of do_div. -/
theorem claim_C5_frame_length_clamp (mode : Imx258Mode) (tpf : V4l2Fract)
    (_hden : 0 < tpf.denominator)
    (hdiv : tpf.denominator * mode.line_length_pix < 2 ^ 32)
    (hh : mode.height ≤ IMX258_FRAME_LENGTH_MAX) :
    imx258_get_frame_length mode tpf =
      max mode.height
        (min (tpf.numerator * IMX258_PIXEL_RATE /
          (tpf.denominator * mode.line_length_pix)) IMX258_FRAME_LENGTH_MAX) ∧
    mode.height ≤ imx258_get_frame_length mode tpf ∧
    imx258_get_frame_length mode tpf ≤ IMX258_FRAME_LENGTH_MAX := by
  simp only [imx258_get_frame_length]
  rw [Nat.mod_eq_of_lt hdiv]
  split <;> refine ⟨?_, ?_, ?_⟩ <;> omega

/-- C5 witness: the default frame interval of the full resolution mode gives
frame length 4842, inside the clamp range. -/
theorem claim_C5_witness :
    0 < (1000 : Nat) ∧
    (1000 : Nat) * imx258_mode_4208x3120.line_length_pix < 2 ^ 32 ∧
    imx258_mode_4208x3120.height ≤ IMX258_FRAME_LENGTH_MAX ∧
    (imx258_get_frame_length imx258_mode_4208x3120 ⟨100, 1000⟩ =
      max imx258_mode_4208x3120.height
        (min (100 * IMX258_PIXEL_RATE /
          (1000 * imx258_mode_4208x3120.line_length_pix))
          IMX258_FRAME_LENGTH_MAX) ∧
     imx258_mode_4208x3120.height ≤
       imx258_get_frame_length imx258_mode_4208x3120 ⟨100, 1000⟩ ∧
     imx258_get_frame_length imx258_mode_4208x3120 ⟨100, 1000⟩ ≤
       IMX258_FRAME_LENGTH_MAX) :=
  ⟨by decide, by decide, by decide,
   claim_C5_frame_length_clamp imx258_mode_4208x3120 ⟨100, 1000⟩
     (by decide) (by decide) (by decide)⟩

/-- C9: for a fixed mode and denominator the computed frame length is
monotone non-decreasing in the frame interval numerator. -/
theorem claim_C9_frame_length_monotone (mode : Imx258Mode) (n1 n2 den : Nat)
    (h : n1 ≤ n2) :
    imx258_get_frame_length mode ⟨n1, den⟩ ≤
      imx258_get_frame_length mode ⟨n2, den⟩ := by
  simp only [imx258_get_frame_length]
  have hdiv : n1 * IMX258_PIXEL_RATE / ((den * mode.line_length_pix) % 2 ^ 32) ≤
      n2 * IMX258_PIXEL_RATE / ((den * mode.line_length_pix) % 2 ^ 32) :=
    Nat.div_le_div_right (Nat.mul_le_mul_right _ h)
  split <;> split <;> omega

/-- C9 witness: a slower requested rate (numerator 200 against 100) gives an
equal or longer frame length on the full resolution mode. -/
theorem claim_C9_witness :
    (100 : Nat) ≤ 200 ∧
    imx258_get_frame_length imx258_mode_4208x3120 ⟨100, 1000⟩ ≤
      imx258_get_frame_length imx258_mode_4208x3120 ⟨200, 1000⟩ :=
  ⟨by decide, claim_C9_frame_length_monotone imx258_mode_4208x3120 100 200 1000
    (by decide)⟩

/-! ## Claim C6: flip-dependent format code remap -/

lemma get_format_code_eq (d : Imx258) (code : Nat) :
    imx258_get_format_code d code =
      codes.getD
        (((if codes.length ≤ codes.findIdx (fun c => c = code) then 0
           else codes.findIdx (fun c => c = code)) &&& 0xfffffffc) |||
         (if d.vflip = 0 then 0 else 2) |||
         (if d.hflip = 0 then 0 else 1)) 0 := rfl

lemma format_index_mem (j a b : Nat) (hj : j ≤ 4)
    (ha : a = 0 ∨ a = 2) (hb : b = 0 ∨ b = 1) :
    codes.getD (((if codes.length ≤ j then 0 else j) &&& 0xfffffffc) |||
      a ||| b) 0 ∈ codes := by
  interval_cases j <;> rcases ha with rfl | rfl <;> rcases hb with rfl | rfl <;>
    decide

lemma findIdx_notin_eq_four (code : Nat) (hnot : code ∉ codes) :
    codes.findIdx (fun c => c = code) = 4 := by
  by_contra hne
  have hlt : codes.findIdx (fun c => c = code) < codes.length :=
    Nat.lt_of_le_of_ne (List.findIdx_le_length _)
      (fun hcontra => hne (by simpa [codes] using hcontra))
  have hg := List.findIdx_getElem (w := hlt)
  simp only [decide_eq_true_eq] at hg
  exact hnot (hg ▸ List.getElem_mem hlt)

/-- C6: the flip remap returns the table entry at index
(baseIndex AND NOT 3) OR (vflip ? 2 : 0) OR (hflip ? 1 : 0) where baseIndex
is the index of the requested code, an unrecognized code defaults to block 0,
and the result is always a member of the compiled code table. -/
theorem claim_C6_format_code (d : Imx258) (code : Nat) :
    (code ∉ codes →
      imx258_get_format_code d code =
        codes.getD ((if d.vflip = 0 then 0 else 2) |||
          (if d.hflip = 0 then 0 else 1)) 0) ∧
    (code ∈ codes →
      imx258_get_format_code d code =
        codes.getD ((codes.findIdx (fun c => c = code) &&& 0xfffffffc) |||
          (if d.vflip = 0 then 0 else 2) |||
          (if d.hflip = 0 then 0 else 1)) 0) ∧
    imx258_get_format_code d code ∈ codes := by
  have hlen : codes.length = 4 := rfl
  refine ⟨?_, ?_, ?_⟩
  · intro hnot
    rw [get_format_code_eq, findIdx_notin_eq_four code hnot, hlen,
      if_pos (le_refl 4), Nat.zero_and, Nat.zero_or]
  · intro hmem
    have hlt : codes.findIdx (fun c => c = code) < codes.length :=
      List.findIdx_lt_length_of_exists ⟨code, hmem, by simp⟩
    rw [get_format_code_eq, if_neg (by omega)]
  · rw [get_format_code_eq]
    refine format_index_mem _ _ _ (hlen ▸ List.findIdx_le_length _) ?_ ?_
    · by_cases hv : d.vflip = 0 <;> simp [hv]
    · by_cases hhf : d.hflip = 0 <;> simp [hhf]

/-- C6 witness: the unrecognized code 0 falls back to block 0 on the device
dev0 (no flips), and the result is in the table. -/
theorem claim_C6_witness :
    (0 : Nat) ∉ codes ∧
    imx258_get_format_code dev0 0 =
      codes.getD ((if dev0.vflip = 0 then 0 else 2) |||
        (if dev0.hflip = 0 then 0 else 1)) 0 ∧
    imx258_get_format_code dev0 0 ∈ codes :=
  ⟨by decide, (claim_C6_format_code dev0 0).1 (by decide),
   (claim_C6_format_code dev0 0).2.2⟩

/-! ## Claim C3: digital gain fan-out -/

/-- C3, code evaluation at the failing input: on the imx258-soho.c dispatcher
a forced failure of the third channel write (the B gain register) with the
other three succeeding leaves all four channel writes issued with the logical
value 1024 (so the earlier successful GR and R writes are not rolled back),
yet the control set reports success (0), because the C switch assigns ret
from each write without checking, keeping only the result of the last (GB)
write.  This contradicts the claim that the failure is reported to the
caller. -/
theorem claim_C3_code_bug_eval :
    (v4l2_s_ctrl bus_fail_b_gain true dev0 .digital_gain 1024).2.2 = 0 ∧
    (v4l2_s_ctrl bus_fail_b_gain true dev0 .digital_gain 1024).2.1 =
      [⟨IMX258_REG_GR_DIGITAL_GAIN, 2, 1024⟩,
       ⟨IMX258_REG_R_DIGITAL_GAIN, 2, 1024⟩,
       ⟨IMX258_REG_B_DIGITAL_GAIN, 2, 1024⟩,
       ⟨IMX258_REG_GB_DIGITAL_GAIN, 2, 1024⟩] ∧
    bus_fail_b_gain.fails ⟨IMX258_REG_B_DIGITAL_GAIN, 2, 1024⟩ = true := by
  decide

/-- Contrast for C3: the imx258_update_digital_gain helper of the
src/unnamed/part_000 variant checks every channel write and does report the
same injected failure to its caller (order GR, GB, R, B there, so the B
write is the last). -/
theorem update_digital_gain_reports_failure :
    (imx258_update_digital_gain bus_fail_b_gain 1024).2 = -EIO_code ∧
    (imx258_update_digital_gain bus_fail_b_gain 1024).1 =
      [⟨IMX258_REG_GR_DIGITAL_GAIN, 2, 1024⟩,
       ⟨IMX258_REG_GB_DIGITAL_GAIN, 2, 1024⟩,
       ⟨IMX258_REG_R_DIGITAL_GAIN, 2, 1024⟩,
       ⟨IMX258_REG_B_DIGITAL_GAIN, 2, 1024⟩] := by
  decide

/-! ## Claim C7: stop streaming swallows write failures -/

/-- C7: stopping the stream always succeeds from the point of view of the
caller: whatever the bus does, imx258_set_stream on disable attempts the
standby mode select write, returns 0, and marks the device not streaming. -/
theorem claim_C7_stop_swallows_error (bus : Bus) (d : Imx258)
    (h : d.streaming = true) :
    (imx258_set_stream bus d false).2.2 = 0 ∧
    (imx258_set_stream bus d false).1.streaming = false ∧
    (imx258_set_stream bus d false).2.1 = [mode_select_standby] := by
  refine ⟨?_, ?_, ?_⟩ <;>
    simp [imx258_set_stream, h, imx258_stop_streaming, imx258_write_reg,
      mode_select_standby, IMX258_REG_MODE_SELECT, IMX258_MODE_STANDBY,
      IMX258_REG_VALUE_08BIT]

/-- C7 witness: even on a bus that rejects the mode select write, stopping
the streaming device dev_streaming returns 0 and leaves it not streaming. -/
theorem claim_C7_witness :
    dev_streaming.streaming = true ∧
    (imx258_set_stream bus_fail_mode_select dev_streaming false).2.2 = 0 ∧
    (imx258_set_stream bus_fail_mode_select dev_streaming false).1.streaming
      = false ∧
    (imx258_set_stream bus_fail_mode_select dev_streaming false).2.1 =
      [mode_select_standby] := by
  have hc := claim_C7_stop_swallows_error bus_fail_mode_select dev_streaming rfl
  exact ⟨rfl, hc.1, hc.2.1, hc.2.2⟩

/-! ## Trace lemmas for the stream sequencer -/

lemma write_reg_1_eq (bus : Bus) (r : Nat × Nat) :
    imx258_write_reg bus r.1 1 r.2 =
      ([reg_write_1 r], if bus.fails (reg_write_1 r) then -EIO_code else 0) := rfl

/-- Run of imx258_write_regs on any bus: the attempts issued are an initial
segment of the write list, the full list exactly when 0 is returned, and the
return code is 0 or -EIO_code. -/
lemma write_regs_run (bus : Bus) (regs : List (Nat × Nat)) :
    (∃ t, regs_writes regs = (imx258_write_regs bus regs).1 ++ t) ∧
    ((imx258_write_regs bus regs).2 = 0 →
      (imx258_write_regs bus regs).1 = regs_writes regs) ∧
    ((imx258_write_regs bus regs).2 = 0 ∨
      (imx258_write_regs bus regs).2 = -EIO_code) := by
  induction regs with
  | nil => exact ⟨⟨[], rfl⟩, fun _ => rfl, Or.inl rfl⟩
  | cons r rest ih =>
    obtain ⟨⟨t, ht⟩, hfull, hstat⟩ := ih
    by_cases hf : bus.fails (reg_write_1 r)
    · have he : imx258_write_regs bus (r :: rest) = ([reg_write_1 r], -EIO_code) := by
        simp [imx258_write_regs, write_reg_1_eq, hf, EIO_code]
      rw [he]
      exact ⟨⟨regs_writes rest, rfl⟩, fun h => absurd h (by simp [EIO_code]), Or.inr rfl⟩
    · have he : imx258_write_regs bus (r :: rest) =
          (reg_write_1 r :: (imx258_write_regs bus rest).1,
            (imx258_write_regs bus rest).2) := by
        simp [imx258_write_regs, write_reg_1_eq, hf]
      rw [he]
      refine ⟨⟨t, ?_⟩, ?_, hstat⟩
      · simp only [List.cons_append]
        rw [← ht]
        rfl
      · intro h
        rw [hfull h]
        rfl

/-- Run of imx258_set_frame_length on any bus: the long exposure shift is
stored regardless of write outcomes, the writes issued are an initial
segment of the fault-free pair (frame length register then shift register),
and the return code is 0 or -EIO_code. -/
lemma set_frame_length_run (bus : Bus) (d : Imx258) (v : Nat) :
    (imx258_set_frame_length bus d v).1 =
      { d with long_exp_shift := (imx258_long_exp_loop v).1 } ∧
    (∃ t, (imx258_set_frame_length bus_ok d v).2.1 =
      (imx258_set_frame_length bus d v).2.1 ++ t) ∧
    ((imx258_set_frame_length bus d v).2.2 = 0 →
      (imx258_set_frame_length bus d v).2.1 =
        (imx258_set_frame_length bus_ok d v).2.1) ∧
    ((imx258_set_frame_length bus d v).2.2 = 0 ∨
     (imx258_set_frame_length bus d v).2.2 = -EIO_code) := by
  simp only [imx258_set_frame_length, imx258_write_reg, bus_ok,
    IMX258_REG_VALUE_16BIT, IMX258_REG_VALUE_08BIT, Nat.reduceLT, reduceIte,
    Bool.false_eq_true, if_false, ne_eq]
  by_cases hfA : bus.fails
    { addr := IMX258_REG_FRAME_LENGTH % 65536, len := 2,
      val := (imx258_long_exp_loop v).2 % 65536 }
  · simp [hfA, EIO_code]
  · by_cases hfB : bus.fails
      { addr := IMX258_LONG_EXP_SHIFT_REG % 65536, len := 1,
        val := (imx258_long_exp_loop v).1 % 256 }
    · simp [hfA, hfB, EIO_code]
    · simp [hfA, hfB]

/-- Run of one control dispatch while powered: the resulting device state is
the pure control step (independent of bus faults), the writes issued are an
initial segment of the fault-free attempt list (the full list exactly when 0
is returned), and the return code is 0, -EIO_code or -EINVAL. -/
lemma set_ctrl_run (bus : Bus) (d : Imx258) (id : CtrlId) :
    (imx258_set_ctrl bus true d id).1 = imx258_ctrl_step d id ∧
    (∃ t, imx258_ctrl_writes d id = (imx258_set_ctrl bus true d id).2.1 ++ t) ∧
    ((imx258_set_ctrl bus true d id).2.2 = 0 →
      (imx258_set_ctrl bus true d id).2.1 = imx258_ctrl_writes d id) ∧
    ((imx258_set_ctrl bus true d id).2.2 = 0 ∨
     (imx258_set_ctrl bus true d id).2.2 = -EIO_code ∨
     (imx258_set_ctrl bus true d id).2.2 = -EINVAL) := by
  cases id
  case vblank =>
    simp only [imx258_set_ctrl, imx258_set_ctrl_body, imx258_ctrl_writes,
      imx258_ctrl_step, reduceCtorEq, if_true, if_false, reduceIte]
    obtain ⟨h1, h2, h3, h4⟩ := set_frame_length_run bus
      (imx258_adjust_exposure_range d)
      (s32_to_u32 ((imx258_adjust_exposure_range d).mode.height +
        (imx258_adjust_exposure_range d).vblank))
    exact ⟨h1, h2, h3, h4.imp (fun x => x) Or.inl⟩
  case unknown n =>
    simp only [imx258_set_ctrl, imx258_set_ctrl_body, imx258_ctrl_writes,
      imx258_ctrl_step, bus_ok, reduceCtorEq, if_true, if_false, reduceIte]
    refine ⟨trivial, ⟨[], rfl⟩, fun h => absurd h (by simp [EINVAL]), by
      simp [EINVAL]⟩
  all_goals
    simp only [imx258_set_ctrl, imx258_set_ctrl_body, imx258_ctrl_writes,
      imx258_ctrl_step, imx258_write_reg, bus_ok, IMX258_REG_VALUE_16BIT,
      IMX258_REG_VALUE_08BIT, reduceCtorEq, if_false, if_true, reduceIte,
      Nat.reduceLT, Bool.false_eq_true, true_and, List.nil_append,
      List.append_nil]
  all_goals
    exact ⟨⟨[], by simp⟩, fun _ => trivial, by split <;> simp [EIO_code]⟩

lemma ctrl_step_fields (d : Imx258) (id : CtrlId) :
    (imx258_ctrl_step d id).streaming = d.streaming ∧
    (imx258_ctrl_step d id).common_regs_written = d.common_regs_written ∧
    (imx258_ctrl_step d id).mode = d.mode := by
  cases id <;> exact ⟨rfl, rfl, rfl⟩

lemma ctrl_writes_flag (d : Imx258) (b : Bool) (id : CtrlId) :
    imx258_ctrl_writes { d with common_regs_written := b } id =
      imx258_ctrl_writes d id := by
  cases id <;> rfl

lemma ctrl_step_flag (d : Imx258) (b : Bool) (id : CtrlId) :
    imx258_ctrl_step { d with common_regs_written := b } id =
      { imx258_ctrl_step d id with common_regs_written := b } := by
  cases id <;> rfl

lemma ctrl_setup_writes_flag (ids : List CtrlId) (d : Imx258) (b : Bool) :
    imx258_ctrl_setup_writes { d with common_regs_written := b } ids =
      imx258_ctrl_setup_writes d ids := by
  induction ids generalizing d with
  | nil => rfl
  | cons id rest ih =>
    simp only [imx258_ctrl_setup_writes, ctrl_writes_flag, ctrl_step_flag,
      ih (imx258_ctrl_step d id)]

/-- Run of the bulk control commit replay loop: prefix/equality of the
fault-free write list, error codes, and preservation of the streaming and
common-registers flags. -/
lemma setup_go_run (bus : Bus) (ids : List CtrlId) (d : Imx258) :
    (∃ t, imx258_ctrl_setup_writes d ids =
      (v4l2_ctrl_handler_setup_go bus d ids).2.1 ++ t) ∧
    ((v4l2_ctrl_handler_setup_go bus d ids).2.2 = 0 →
      (v4l2_ctrl_handler_setup_go bus d ids).2.1 =
        imx258_ctrl_setup_writes d ids) ∧
    ((v4l2_ctrl_handler_setup_go bus d ids).2.2 = 0 ∨
     (v4l2_ctrl_handler_setup_go bus d ids).2.2 = -EIO_code ∨
     (v4l2_ctrl_handler_setup_go bus d ids).2.2 = -EINVAL) ∧
    (v4l2_ctrl_handler_setup_go bus d ids).1.streaming = d.streaming ∧
    (v4l2_ctrl_handler_setup_go bus d ids).1.common_regs_written =
      d.common_regs_written := by
  induction ids generalizing d with
  | nil => exact ⟨⟨[], rfl⟩, fun _ => rfl, Or.inl rfl, rfl, rfl⟩
  | cons id rest ih =>
    obtain ⟨hstate, ⟨t1, ht1⟩, hfull1, hstat1⟩ := set_ctrl_run bus d id
    by_cases hr : (imx258_set_ctrl bus true d id).2.2 = 0
    · have he : v4l2_ctrl_handler_setup_go bus d (id :: rest) =
          ((v4l2_ctrl_handler_setup_go bus
              (imx258_set_ctrl bus true d id).1 rest).1,
           (imx258_set_ctrl bus true d id).2.1 ++
             (v4l2_ctrl_handler_setup_go bus
               (imx258_set_ctrl bus true d id).1 rest).2.1,
           (v4l2_ctrl_handler_setup_go bus
             (imx258_set_ctrl bus true d id).1 rest).2.2) := by
        simp [v4l2_ctrl_handler_setup_go, hr]
      rw [he, hstate, hfull1 hr]
      obtain ⟨⟨t2, ht2⟩, hfull2, hstat2, hstr2, hcrw2⟩ :=
        ih (imx258_ctrl_step d id)
      refine ⟨⟨t2, ?_⟩, ?_, hstat2, ?_, ?_⟩
      · simp only [imx258_ctrl_setup_writes, List.append_assoc]
        rw [ht2]
      · intro h
        simp only [imx258_ctrl_setup_writes]
        rw [hfull2 h]
      · rw [hstr2, (ctrl_step_fields d id).1]
      · rw [hcrw2, (ctrl_step_fields d id).2.1]
    · have he : v4l2_ctrl_handler_setup_go bus d (id :: rest) =
          imx258_set_ctrl bus true d id := by
        simp [v4l2_ctrl_handler_setup_go, hr]
      rw [he]
      refine ⟨⟨t1 ++ imx258_ctrl_setup_writes (imx258_ctrl_step d id) rest,
        ?_⟩, fun h => absurd h hr, ?_, ?_, ?_⟩
      · simp only [imx258_ctrl_setup_writes, ht1, List.append_assoc]
      · rcases hstat1 with h | h
        · exact absurd h hr
        · exact Or.inr h
      · rw [hstate, (ctrl_step_fields d id).1]
      · rw [hstate, (ctrl_step_fields d id).2.1]

lemma expected_mode_on_flag (d : Imx258) (b : Bool) :
    imx258_expected_mode_on_writes { d with common_regs_written := b } =
      imx258_expected_mode_on_writes d := by
  simp only [imx258_expected_mode_on_writes, ctrl_setup_writes_flag]

/-- Run of the stream start steps after the common register step. -/
lemma start_after_common_run (bus : Bus) (d : Imx258) :
    (∃ t, imx258_expected_mode_on_writes d =
      (imx258_start_streaming_after_common bus d).2.1 ++ t) ∧
    ((imx258_start_streaming_after_common bus d).2.2 = 0 →
      (imx258_start_streaming_after_common bus d).2.1 =
        imx258_expected_mode_on_writes d) ∧
    ((imx258_start_streaming_after_common bus d).2.2 = 0 ∨
     (imx258_start_streaming_after_common bus d).2.2 = -EIO_code ∨
     (imx258_start_streaming_after_common bus d).2.2 = -EINVAL) ∧
    (imx258_start_streaming_after_common bus d).1.streaming = d.streaming := by
  obtain ⟨⟨t1, ht1⟩, hfull1, hstat1⟩ := write_regs_run bus d.mode.reg_list
  by_cases h1 : (imx258_write_regs bus d.mode.reg_list).2 = 0
  · obtain ⟨⟨t2, ht2⟩, hfull2, hstat2, hstr2, hcrw2⟩ :=
      setup_go_run bus imx258_setup_order d
    by_cases h2 : (v4l2_ctrl_handler_setup bus d).2.2 = 0
    · have he : imx258_start_streaming_after_common bus d =
          ((v4l2_ctrl_handler_setup bus d).1,
           (imx258_write_regs bus d.mode.reg_list).1 ++
             (v4l2_ctrl_handler_setup bus d).2.1 ++
             (imx258_write_reg bus IMX258_REG_MODE_SELECT
               IMX258_REG_VALUE_08BIT IMX258_MODE_STREAMING).1,
           (imx258_write_reg bus IMX258_REG_MODE_SELECT
             IMX258_REG_VALUE_08BIT IMX258_MODE_STREAMING).2) := by
        simp [imx258_start_streaming_after_common, h1, h2]
      rw [he]
      have hson : imx258_write_reg bus IMX258_REG_MODE_SELECT
          IMX258_REG_VALUE_08BIT IMX258_MODE_STREAMING =
          ([mode_select_streaming],
            if bus.fails mode_select_streaming then -EIO_code else 0) := rfl
      rw [hson]
      have htr : (imx258_write_regs bus d.mode.reg_list).1 ++
          (v4l2_ctrl_handler_setup bus d).2.1 ++ [mode_select_streaming] =
          imx258_expected_mode_on_writes d := by
        simp only [imx258_expected_mode_on_writes, hfull1 h1,
          v4l2_ctrl_handler_setup] at *
        rw [hfull2 h2]
      refine ⟨⟨[], by rw [← htr]; simp⟩, fun _ => htr, ?_, ?_⟩
      · by_cases hf : bus.fails mode_select_streaming <;> simp [hf, EIO_code]
      · simpa [v4l2_ctrl_handler_setup] using hstr2
    · have he : imx258_start_streaming_after_common bus d =
          ((v4l2_ctrl_handler_setup bus d).1,
           (imx258_write_regs bus d.mode.reg_list).1 ++
             (v4l2_ctrl_handler_setup bus d).2.1,
           (v4l2_ctrl_handler_setup bus d).2.2) := by
        simp [imx258_start_streaming_after_common, h1, h2]
      rw [he]
      refine ⟨⟨t2 ++ [mode_select_streaming], ?_⟩, fun h => absurd h h2,
        ?_, ?_⟩
      · simp only [imx258_expected_mode_on_writes, hfull1 h1,
          v4l2_ctrl_handler_setup, List.append_assoc] at *
        rw [ht2]
        simp
      · rcases hstat2 with h | h
        · exact absurd h h2
        · exact Or.inr h
      · simpa [v4l2_ctrl_handler_setup] using hstr2
  · have he : imx258_start_streaming_after_common bus d =
        (d, (imx258_write_regs bus d.mode.reg_list).1,
          (imx258_write_regs bus d.mode.reg_list).2) := by
      simp [imx258_start_streaming_after_common, h1]
    rw [he]
    refine ⟨⟨t1 ++ imx258_ctrl_setup_writes d imx258_setup_order ++
      [mode_select_streaming], ?_⟩, fun h => absurd h h1, ?_, rfl⟩
    · simp only [imx258_expected_mode_on_writes, ht1, List.append_assoc]
    · rcases hstat1 with h | h
      · exact absurd h h1
      · exact Or.inr (Or.inl h)

/-- Run of imx258_start_streaming on any bus: the writes issued are an
initial segment of the expected start sequence (all of it exactly when 0 is
returned), the return code is 0, -EIO_code or -EINVAL, and the streaming flag is
untouched. -/
lemma start_streaming_run (bus : Bus) (d : Imx258) :
    (∃ t, imx258_expected_start_writes d =
      (imx258_start_streaming bus d).2.1 ++ t) ∧
    ((imx258_start_streaming bus d).2.2 = 0 →
      (imx258_start_streaming bus d).2.1 = imx258_expected_start_writes d) ∧
    ((imx258_start_streaming bus d).2.2 = 0 ∨
     (imx258_start_streaming bus d).2.2 = -EIO_code ∨
     (imx258_start_streaming bus d).2.2 = -EINVAL) ∧
    (imx258_start_streaming bus d).1.streaming = d.streaming := by
  by_cases hc : d.common_regs_written
  · have he : imx258_start_streaming bus d =
        imx258_start_streaming_after_common bus d := by
      simp [imx258_start_streaming, hc]
    have hexp : imx258_expected_start_writes d =
        imx258_expected_mode_on_writes d := by
      simp [imx258_expected_start_writes, hc]
    rw [he, hexp]
    exact start_after_common_run bus d
  · obtain ⟨⟨t1, ht1⟩, hfull1, hstat1⟩ := write_regs_run bus mode_common_regs
    have hexp : imx258_expected_start_writes d =
        regs_writes mode_common_regs ++ imx258_expected_mode_on_writes d := by
      simp [imx258_expected_start_writes, hc]
    by_cases h1 : (imx258_write_regs bus mode_common_regs).2 = 0
    · have he : imx258_start_streaming bus d =
          ((imx258_start_streaming_after_common bus
              { d with common_regs_written := true }).1,
           (imx258_write_regs bus mode_common_regs).1 ++
             (imx258_start_streaming_after_common bus
               { d with common_regs_written := true }).2.1,
           (imx258_start_streaming_after_common bus
             { d with common_regs_written := true }).2.2) := by
        simp [imx258_start_streaming, hc, h1]
      rw [he, hexp, hfull1 h1]
      obtain ⟨⟨t2, ht2⟩, hfull2, hstat2, hstr2⟩ :=
        start_after_common_run bus { d with common_regs_written := true }
      rw [expected_mode_on_flag] at ht2 hfull2
      refine ⟨⟨t2, ?_⟩, ?_, hstat2, hstr2⟩
      · rw [ht2]
        simp
      · intro h
        rw [hfull2 h]
    · have he : imx258_start_streaming bus d =
          (d, (imx258_write_regs bus mode_common_regs).1,
            (imx258_write_regs bus mode_common_regs).2) := by
        simp [imx258_start_streaming, hc, h1]
      rw [he, hexp]
      refine ⟨⟨t1 ++ imx258_expected_mode_on_writes d, ?_⟩,
        fun h => absurd h h1, ?_, rfl⟩
      · rw [ht1]
        simp
      · rcases hstat1 with h | h
        · exact absurd h h1
        · exact Or.inr (Or.inl h)

lemma ctrl_writes_addr_ne (d : Imx258) (id : CtrlId) :
    ∀ w ∈ imx258_ctrl_writes d id, w.addr ≠ IMX258_REG_MODE_SELECT := by
  intro w hw
  cases id
  case digital_gain =>
    simp only [imx258_ctrl_writes, imx258_set_ctrl, imx258_set_ctrl_body,
      imx258_set_frame_length, imx258_write_reg, bus_ok,
      IMX258_REG_VALUE_16BIT, IMX258_REG_VALUE_08BIT, reduceCtorEq, if_true,
      if_false, reduceIte, Nat.reduceLT, Bool.false_eq_true,
      List.mem_singleton, List.mem_cons, List.not_mem_nil,
      List.mem_append, List.nil_append, List.append_nil,
      List.singleton_append, List.cons_append, or_false, false_or, ne_eq,
      eq_self_iff_true, not_true_eq_false, ite_false, ite_true] at hw
    rcases hw with rfl | rfl | rfl | rfl <;> simp [IMX258_REG_MODE_SELECT, IMX258_REG_ANALOG_GAIN,
      IMX258_REG_EXPOSURE, IMX258_REG_GR_DIGITAL_GAIN,
      IMX258_REG_R_DIGITAL_GAIN, IMX258_REG_B_DIGITAL_GAIN,
      IMX258_REG_GB_DIGITAL_GAIN, IMX258_REG_TEST_PATTERN,
      IMX258_REG_TEST_PATTERN_R, IMX258_REG_TEST_PATTERN_GR,
      IMX258_REG_TEST_PATTERN_B, IMX258_REG_TEST_PATTERN_GB,
      IMX258_REG_ORIENTATION, IMX258_REG_FRAME_LENGTH,
      IMX258_LONG_EXP_SHIFT_REG]
  case vblank =>
    simp only [imx258_ctrl_writes, imx258_set_ctrl, imx258_set_ctrl_body,
      imx258_set_frame_length, imx258_write_reg, bus_ok,
      IMX258_REG_VALUE_16BIT, IMX258_REG_VALUE_08BIT, reduceCtorEq, if_true,
      if_false, reduceIte, Nat.reduceLT, Bool.false_eq_true,
      List.mem_singleton, List.mem_cons, List.not_mem_nil,
      List.mem_append, List.nil_append, List.append_nil,
      List.singleton_append, List.cons_append, or_false, false_or, ne_eq,
      eq_self_iff_true, not_true_eq_false, ite_false, ite_true] at hw
    rcases hw with rfl | rfl <;> simp [IMX258_REG_MODE_SELECT, IMX258_REG_ANALOG_GAIN,
      IMX258_REG_EXPOSURE, IMX258_REG_GR_DIGITAL_GAIN,
      IMX258_REG_R_DIGITAL_GAIN, IMX258_REG_B_DIGITAL_GAIN,
      IMX258_REG_GB_DIGITAL_GAIN, IMX258_REG_TEST_PATTERN,
      IMX258_REG_TEST_PATTERN_R, IMX258_REG_TEST_PATTERN_GR,
      IMX258_REG_TEST_PATTERN_B, IMX258_REG_TEST_PATTERN_GB,
      IMX258_REG_ORIENTATION, IMX258_REG_FRAME_LENGTH,
      IMX258_LONG_EXP_SHIFT_REG]
  case unknown n =>
    simp only [imx258_ctrl_writes, imx258_set_ctrl, imx258_set_ctrl_body,
      imx258_set_frame_length, imx258_write_reg, bus_ok,
      IMX258_REG_VALUE_16BIT, IMX258_REG_VALUE_08BIT, reduceCtorEq, if_true,
      if_false, reduceIte, Nat.reduceLT, Bool.false_eq_true,
      List.mem_singleton, List.mem_cons, List.not_mem_nil,
      List.mem_append, List.nil_append, List.append_nil,
      List.singleton_append, List.cons_append, or_false, false_or, ne_eq,
      eq_self_iff_true, not_true_eq_false, ite_false, ite_true] at hw
  all_goals
    (simp only [imx258_ctrl_writes, imx258_set_ctrl, imx258_set_ctrl_body,
      imx258_set_frame_length, imx258_write_reg, bus_ok,
      IMX258_REG_VALUE_16BIT, IMX258_REG_VALUE_08BIT, reduceCtorEq, if_true,
      if_false, reduceIte, Nat.reduceLT, Bool.false_eq_true,
      List.mem_singleton, List.mem_cons, List.not_mem_nil,
      List.mem_append, List.nil_append, List.append_nil,
      List.singleton_append, List.cons_append, or_false, false_or, ne_eq,
      eq_self_iff_true, not_true_eq_false, ite_false, ite_true] at hw
     subst hw
     simp [IMX258_REG_MODE_SELECT, IMX258_REG_ANALOG_GAIN,
      IMX258_REG_EXPOSURE, IMX258_REG_GR_DIGITAL_GAIN,
      IMX258_REG_R_DIGITAL_GAIN, IMX258_REG_B_DIGITAL_GAIN,
      IMX258_REG_GB_DIGITAL_GAIN, IMX258_REG_TEST_PATTERN,
      IMX258_REG_TEST_PATTERN_R, IMX258_REG_TEST_PATTERN_GR,
      IMX258_REG_TEST_PATTERN_B, IMX258_REG_TEST_PATTERN_GB,
      IMX258_REG_ORIENTATION, IMX258_REG_FRAME_LENGTH,
      IMX258_LONG_EXP_SHIFT_REG])

lemma ctrl_setup_writes_addr_ne (ids : List CtrlId) (d : Imx258) :
    ∀ w ∈ imx258_ctrl_setup_writes d ids,
      w.addr ≠ IMX258_REG_MODE_SELECT := by
  induction ids generalizing d with
  | nil => intro w hw; exact absurd hw (List.not_mem_nil w)
  | cons id rest ih =>
    intro w hw
    rcases List.mem_append.mp hw with h | h
    · exact ctrl_writes_addr_ne d id w h
    · exact ih (imx258_ctrl_step d id) w h

lemma mode_select_notin_common :
    mode_select_streaming ∉ regs_writes mode_common_regs := by decide

lemma mode_select_notin_mode (m : Imx258Mode)
    (hm : m ∈ supported_modes_10bit) :
    mode_select_streaming ∉ regs_writes m.reg_list := by
  simp only [supported_modes_10bit, List.mem_cons, List.not_mem_nil,
    or_false] at hm
  rcases hm with rfl | rfl | rfl <;> decide

/-- Decomposition of the expected start sequence as a prefix followed by the
single mode select write. -/
lemma expected_start_decomp (d : Imx258) :
    imx258_expected_start_writes d =
      ((if d.common_regs_written then [] else regs_writes mode_common_regs) ++
       (regs_writes d.mode.reg_list ++
        imx258_ctrl_setup_writes d imx258_setup_order)) ++
      [mode_select_streaming] := by
  simp [imx258_expected_start_writes, imx258_expected_mode_on_writes]

lemma mode_select_notin_expected_head (d : Imx258)
    (hm : d.mode ∈ supported_modes_10bit) :
    mode_select_streaming ∉
      ((if d.common_regs_written then [] else regs_writes mode_common_regs) ++
       (regs_writes d.mode.reg_list ++
        imx258_ctrl_setup_writes d imx258_setup_order)) := by
  intro hmem
  rcases List.mem_append.mp hmem with h | h
  · split at h
    · exact absurd h (List.not_mem_nil _)
    · exact mode_select_notin_common h
  · rcases List.mem_append.mp h with h2 | h2
    · exact mode_select_notin_mode d.mode hm h2
    · exact ctrl_setup_writes_addr_ne imx258_setup_order d
        mode_select_streaming h2 rfl

/-- If a list followed by a tail equals a prefix followed by one element x
not occurring in the prefix, and x occurs in the list, then the list is the
whole thing. -/
lemma eq_of_mem_append_singleton {α : Type} (pre trace t : List α) (x : α)
    (h : pre ++ [x] = trace ++ t) (hx : x ∉ pre) (hmem : x ∈ trace) :
    trace = pre ++ [x] := by
  cases t with
  | nil => simpa using h.symm
  | cons b bs =>
    exfalso
    have hlen : trace.length ≤ pre.length := by
      have hl := congrArg List.length h
      simp [List.length_append] at hl
      omega
    have htr : trace = pre.take trace.length := by
      have h1 : trace = (trace ++ (b :: bs)).take trace.length := by
        rw [List.take_left]
      rw [← h] at h1
      rwa [List.take_append_of_le_length hlen] at h1
    exact hx (List.take_subset _ _ (htr ▸ hmem))

/-! ## Claim C1: stream start sequencing and failure handling -/

/-- C1: starting a stream from standby issues, in order, the common register
table (only if not already written this power cycle), the register sequence
of the active mode, the bulk control commit, and finally the mode select
write to the streaming value (the issued writes are always an initial
segment of that sequence); on success the whole sequence was issued and the
device becomes streaming; on failure of any step the error (a negative
errno) is returned to the caller, the device stays not streaming, and the
mode select write was issued only in the case where every preceding step had
already succeeded and the mode select write itself was the failing step. -/
theorem claim_C1_start_stream_sequence (bus : Bus) (d : Imx258)
    (hstr : d.streaming = false) (hmode : d.mode ∈ supported_modes_10bit) :
    (∃ t, imx258_expected_start_writes d =
      (imx258_set_stream bus d true).2.1 ++ t) ∧
    ((imx258_set_stream bus d true).2.2 = 0 →
      (imx258_set_stream bus d true).2.1 = imx258_expected_start_writes d ∧
      (imx258_set_stream bus d true).1.streaming = true) ∧
    ((imx258_set_stream bus d true).2.2 ≠ 0 →
      ((imx258_set_stream bus d true).2.2 = -EIO_code ∨
       (imx258_set_stream bus d true).2.2 = -EINVAL) ∧
      (imx258_set_stream bus d true).1.streaming = false ∧
      (mode_select_streaming ∈ (imx258_set_stream bus d true).2.1 →
        (imx258_set_stream bus d true).2.1 =
          imx258_expected_start_writes d)) := by
  obtain ⟨⟨t1, ht1⟩, hfull, hstat, hstr1⟩ := start_streaming_run bus d
  by_cases hr : (imx258_start_streaming bus d).2.2 = 0
  · have he : imx258_set_stream bus d true =
        ({ (imx258_start_streaming bus d).1 with
            streaming := true, vflip_grabbed := true, hflip_grabbed := true },
         (imx258_start_streaming bus d).2.1,
         (imx258_start_streaming bus d).2.2) := by
      simp [imx258_set_stream, hstr, hr]
    rw [he]
    exact ⟨⟨t1, ht1⟩, fun _ => ⟨hfull hr, rfl⟩, fun hne => absurd hr hne⟩
  · have he : imx258_set_stream bus d true = imx258_start_streaming bus d := by
      simp [imx258_set_stream, hstr, hr]
    rw [he]
    refine ⟨⟨t1, ht1⟩, fun h => absurd h hr, fun _ => ⟨?_, ?_, ?_⟩⟩
    · rcases hstat with h | h
      · exact absurd h hr
      · exact h
    · rw [hstr1, hstr]
    · intro hmem
      have heq := eq_of_mem_append_singleton _ _ t1 mode_select_streaming
        ((expected_start_decomp d).symm.trans ht1)
        (mode_select_notin_expected_head d hmode) hmem
      rw [heq, ← expected_start_decomp d]

/-- C1 witness: on the concrete device dev0 with a fault injected at the bulk
control commit step — the analog gain register 0x0204, which after the mode
tables shed their commented-out entries is written only by the commit — the
start fails with -EIO_code, the failing write is the analog gain commit write
(the last one issued), the device stays not streaming, and the mode select
streaming write is never issued. -/
theorem claim_C1_witness :
    dev0.streaming = false ∧ dev0.mode ∈ supported_modes_10bit ∧
    (imx258_set_stream bus_fail_ana_gain dev0 true).2.2 = -EIO_code ∧
    (imx258_set_stream bus_fail_ana_gain dev0 true).2.1.getLast? =
      some ⟨IMX258_REG_ANALOG_GAIN, 2, 0⟩ ∧
    (imx258_set_stream bus_fail_ana_gain dev0 true).1.streaming = false ∧
    mode_select_streaming ∉
      (imx258_set_stream bus_fail_ana_gain dev0 true).2.1 := by
  have h := claim_C1_start_stream_sequence bus_fail_ana_gain dev0 rfl
    (List.mem_cons_self _ _)
  have hret : (imx258_set_stream bus_fail_ana_gain dev0 true).2.2 = -EIO_code := by
    decide
  exact ⟨rfl, List.mem_cons_self _ _, hret, by decide,
    (h.2.2 (by rw [hret]; decide)).2.1, by decide⟩

/-! ## Claim C8: control writes are deferred while unpowered -/

lemma bus_ok_fails (w : RegWrite) : bus_ok.fails w = false := rfl

lemma write_regs_ok (regs : List (Nat × Nat)) :
    (imx258_write_regs bus_ok regs).2 = 0 := by
  induction regs with
  | nil => rfl
  | cons r rest ih =>
    have he : imx258_write_regs bus_ok (r :: rest) =
        (reg_write_1 r :: (imx258_write_regs bus_ok rest).1,
          (imx258_write_regs bus_ok rest).2) := by
      simp [imx258_write_regs, write_reg_1_eq, bus_ok_fails]
    rw [he]
    exact ih

lemma set_ctrl_ok (d : Imx258) (id : CtrlId) (h : ∀ n, id ≠ .unknown n) :
    (imx258_set_ctrl bus_ok true d id).2.2 = 0 := by
  cases id
  case unknown n => exact absurd rfl (h n)
  all_goals rfl

lemma setup_go_ok (ids : List CtrlId) (d : Imx258)
    (h : ∀ id ∈ ids, ∀ n, id ≠ CtrlId.unknown n) :
    (v4l2_ctrl_handler_setup_go bus_ok d ids).2.2 = 0 := by
  induction ids generalizing d with
  | nil => rfl
  | cons id rest ih =>
    have h1 : (imx258_set_ctrl bus_ok true d id).2.2 = 0 :=
      set_ctrl_ok d id (h id (List.mem_cons_self _ _))
    have he : v4l2_ctrl_handler_setup_go bus_ok d (id :: rest) =
        ((v4l2_ctrl_handler_setup_go bus_ok
            (imx258_set_ctrl bus_ok true d id).1 rest).1,
         (imx258_set_ctrl bus_ok true d id).2.1 ++
           (v4l2_ctrl_handler_setup_go bus_ok
             (imx258_set_ctrl bus_ok true d id).1 rest).2.1,
         (v4l2_ctrl_handler_setup_go bus_ok
           (imx258_set_ctrl bus_ok true d id).1 rest).2.2) := by
      simp [v4l2_ctrl_handler_setup_go, h1]
    rw [he]
    exact ih _ (fun i hi => h i (List.mem_cons_of_mem _ hi))

lemma setup_order_known :
    ∀ id ∈ imx258_setup_order, ∀ n, id ≠ CtrlId.unknown n := by
  intro id hid n hcontra
  subst hcontra
  simp [imx258_setup_order] at hid

/-- Running the whole start sequence on a fault-free bus succeeds and issues
exactly the expected write sequence. -/
lemma start_streaming_ok (d : Imx258) :
    (imx258_start_streaming bus_ok d).2.2 = 0 ∧
    (imx258_start_streaming bus_ok d).2.1 =
      imx258_expected_start_writes d := by
  obtain ⟨-, hfull, -, -⟩ := start_streaming_run bus_ok d
  have hsetup : ∀ d2 : Imx258,
      (v4l2_ctrl_handler_setup bus_ok d2).2.2 = 0 :=
    fun d2 => setup_go_ok imx258_setup_order d2 setup_order_known
  have hson : (imx258_write_reg bus_ok IMX258_REG_MODE_SELECT
      IMX258_REG_VALUE_08BIT IMX258_MODE_STREAMING).2 = 0 := rfl
  have hret : (imx258_start_streaming bus_ok d).2.2 = 0 := by
    by_cases hc : d.common_regs_written <;>
      simp [imx258_start_streaming, imx258_start_streaming_after_common, hc,
        write_regs_ok, hsetup, hson]
  exact ⟨hret, hfull hret⟩

/-- C8: setting any control while the device is not powered records the new
value but issues no register write and returns success; the recorded value
is what the bulk control commit later applies: a subsequent fault-free
stream start issues exactly the expected sequence computed from the updated
control bank (common and mode registers, the control commit replay
containing the recorded values, then mode select = streaming).  The exposure
control is recorded after the framework clamps it into its current range;
every other control records verbatim. -/
theorem claim_C8_deferred_ctrl (bus : Bus) (d : Imx258) (id : CtrlId)
    (val : Int) :
    (v4l2_s_ctrl bus false d id val).2.2 = 0 ∧
    (v4l2_s_ctrl bus false d id val).2.1 = [] ∧
    ((id ≠ CtrlId.exposure ∧ ∀ n, id ≠ CtrlId.unknown n) →
      imx258_ctrl_val (v4l2_s_ctrl bus false d id val).1 id = val) ∧
    (id = CtrlId.exposure →
      imx258_ctrl_val (v4l2_s_ctrl bus false d id val).1 id =
        min (max val d.exposure_min) d.exposure_max) ∧
    ((imx258_start_streaming bus_ok (v4l2_s_ctrl bus false d id val).1).2.2
        = 0 ∧
     (imx258_start_streaming bus_ok (v4l2_s_ctrl bus false d id val).1).2.1 =
       imx258_expected_start_writes (v4l2_s_ctrl bus false d id val).1) := by
  refine ⟨?_, ?_, ?_, ?_, start_streaming_ok _⟩
  · cases id <;> rfl
  · cases id <;> rfl
  · intro ⟨hexp, hunk⟩
    cases id
    case exposure => exact absurd rfl hexp
    case unknown n => exact absurd rfl (hunk n)
    all_goals rfl
  · intro hexp
    subst hexp
    rfl


/-- C8 witness: an analog gain set to 512 while unpowered (even on a bus that
would reject the gain write) returns success without issuing any write,
records the value, and a later stream start on a healthy bus issues the full
expected sequence computed from the recorded state. -/
theorem claim_C8_witness :
    (v4l2_s_ctrl bus_fail_ana_gain false dev0 .analogue_gain 512).2.2 = 0 ∧
    (v4l2_s_ctrl bus_fail_ana_gain false dev0 .analogue_gain 512).2.1 = [] ∧
    imx258_ctrl_val
      (v4l2_s_ctrl bus_fail_ana_gain false dev0 .analogue_gain 512).1
      .analogue_gain = 512 ∧
    (imx258_start_streaming bus_ok
      (v4l2_s_ctrl bus_fail_ana_gain false dev0 .analogue_gain 512).1).2.2
      = 0 := by
  have h := claim_C8_deferred_ctrl bus_fail_ana_gain dev0 .analogue_gain 512
  exact ⟨h.1, h.2.1, h.2.2.1 ⟨by simp, fun n => by simp⟩, h.2.2.2.2.1⟩

end IMX258
